import Mathlib

/-!
Shallow embedding of the `nofio` event-driven network reactor
(`src/lib.rs`), modelling the per-direction buffered stream state
machine, the connection read/write drain loops, and the reactor
cycle's close / reregister / dispatch steps. Byte buffers are `List
Nat`; OS-level non-blocking call outcomes are explicit environment
inputs; a Rust `panic!` / `expect` is modelled as `Option.none`, and a
propagated `io::Error` as `Except.error`.
-/

namespace Nofio

/-- Direction of a `Done` event, mirroring `enum Direction { Read, Write }`. -/
inductive Direction
  | Read
  | Write
deriving DecidableEq, Repr

/-- Event type, mirroring `enum Event { NewConnection(Token), Data(Token), Done(Token, Direction) }`.
Tokens are modelled as `Nat`. -/
inductive Event
  | NewConnection (token : Nat)
  | Data (token : Nat)
  | Done (token : Nat) (dir : Direction)
deriving DecidableEq, Repr

/-- State of one buffered stream, mirroring `enum StreamState`:
`Normal { buf, wanted }`, `Draining { buf }`, `AwaitingConfirmation`, `Done`. -/
inductive StreamState
  | Normal (buf : List Nat) (wanted : Nat)
  | Draining (buf : List Nat)
  | AwaitingConfirmation
  | Done
deriving DecidableEq, Repr

/-- Mirrors `const BUF_SIZE: usize = 8 * 1024`. -/
def BUF_SIZE : Nat := 8 * 1024

/-- Mirrors `const COMMANDS_TOKEN: Token = Token(0)`. -/
def COMMANDS_TOKEN : Nat := 0

/-- Maximum value of Rust `usize` on a 64-bit target. -/
def USIZE_MAX : Nat := 2 ^ 64 - 1

/-- Mirrors `usize::checked_add`: `none` on overflow past `USIZE_MAX`. -/
def checked_add (a b : Nat) : Option Nat :=
  if a + b ≤ USIZE_MAX then some (a + b) else none

/-- Mirrors `Stream::read_interest`: `Normal` wants readiness while below
capacity, `AwaitingConfirmation` always, `Draining`/`Done` never. -/
def read_interest : StreamState → Bool
  | StreamState.Normal b wanted => decide (b.length < wanted)
  | StreamState.AwaitingConfirmation => true
  | StreamState.Draining _ => false
  | StreamState.Done => false

/-- Mirrors `Stream::do_read`: a read is attempted in `Normal` or
`AwaitingConfirmation` state, never in `Draining` or `Done`. -/
def do_read : StreamState → Bool
  | StreamState.Normal _ _ => true
  | StreamState.AwaitingConfirmation => true
  | StreamState.Draining _ => false
  | StreamState.Done => false

/-- Mirrors `Stream::write_interest`: buffer non-empty in `Normal`/`Draining`,
always in `AwaitingConfirmation`, never in `Done`. -/
def write_interest : StreamState → Bool
  | StreamState.Normal b _ => !b.isEmpty
  | StreamState.Draining b => !b.isEmpty
  | StreamState.AwaitingConfirmation => true
  | StreamState.Done => false

/-- Mirrors `Stream::do_write` (same body as `write_interest` in the source). -/
def do_write : StreamState → Bool
  | StreamState.Normal b _ => !b.isEmpty
  | StreamState.Draining b => !b.isEmpty
  | StreamState.AwaitingConfirmation => true
  | StreamState.Done => false

/-- Mirrors `Stream::is_done`. -/
def is_done : StreamState → Bool
  | StreamState.Done => true
  | _ => false

/-- Mirrors `Stream::buf`: the buffer is accessible in `Normal`/`Draining`,
unavailable (`None`) in `AwaitingConfirmation`/`Done`. -/
def buf : StreamState → Option (List Nat)
  | StreamState.Normal b _ => some b
  | StreamState.Draining b => some b
  | StreamState.AwaitingConfirmation => none
  | StreamState.Done => none

/-- Mirrors a write through `Stream::buf_mut`: replace the buffer contents
when accessible, keeping the rest of the state; `none` when the buffer is
unavailable (the call site's `expect` would panic). -/
def set_buf : StreamState → List Nat → Option StreamState
  | StreamState.Normal _ w, b => some (StreamState.Normal b w)
  | StreamState.Draining _, b => some (StreamState.Draining b)
  | StreamState.AwaitingConfirmation, _ => none
  | StreamState.Done, _ => none

/-- Mirrors `Stream::become_truncating_close`: `Normal`/`Draining` →
`AwaitingConfirmation`, discarding the buffer; panics (`none`) from
`AwaitingConfirmation`/`Done`. -/
def become_truncating_close : StreamState → Option StreamState
  | StreamState.Normal _ _ => some StreamState.AwaitingConfirmation
  | StreamState.Draining _ => some StreamState.AwaitingConfirmation
  | StreamState.AwaitingConfirmation => none
  | StreamState.Done => none

/-- Mirrors `Stream::become_draining_close`: `Normal { buf }` →
`Draining { buf }`; panics (`none`) from every other state. -/
def become_draining_close : StreamState → Option StreamState
  | StreamState.Normal b _ => some (StreamState.Draining b)
  | StreamState.Draining _ => none
  | StreamState.AwaitingConfirmation => none
  | StreamState.Done => none

/-- Mirrors `Stream::totes_done`: unconditionally set the state to `Done`. -/
def totes_done (_ : StreamState) : StreamState := StreamState.Done

/-- Mirrors `impl Default for Stream`: `Normal` with an empty buffer and an
8 KiB capacity threshold. -/
def Stream_default : StreamState := StreamState.Normal [] (8 * 1024)

/-- A connection's two buffered streams, mirroring `struct Conn` (the raw
socket is the environment and is not part of the state). -/
structure Conn where
  read_buffer : StreamState
  write_buffer : StreamState
deriving DecidableEq, Repr

/-- Connection as created on accept: both streams at `Stream::default()`. -/
def Conn_default : Conn := ⟨Stream_default, Stream_default⟩

/-- Mirrors `Io::consume`: drain the first `len` bytes of the inbound
buffer; `none` if the buffer is unavailable (`expect` panics) or `len`
exceeds the buffered length (`Vec::drain` range panic). -/
def consume (s : StreamState) (len : Nat) : Option StreamState :=
  match buf s with
  | none => none
  | some b => if len ≤ b.length then set_buf s (b.drop len) else none

/-- Mirrors `Io::write`: append the data to the outbound buffer
(`extend_from_slice`, no capacity check); `none` if the buffer is
unavailable. -/
def write_append (s : StreamState) (data : List Nat) : Option StreamState :=
  match buf s with
  | none => none
  | some b => set_buf s (b ++ data)

/-- Mirrors `Io::close`: truncating close on the inbound stream, draining
close on the outbound stream; `none` if either transition panics. -/
def io_close (c : Conn) : Option Conn :=
  match become_truncating_close c.read_buffer with
  | none => none
  | some rb =>
    match become_draining_close c.write_buffer with
    | none => none
    | some wb => some ⟨rb, wb⟩

/-- OS readiness interest for one socket, mirroring the `mio::Ready` flags
built in `Net::reregister`. -/
structure Interest where
  readable : Bool
  writable : Bool
deriving DecidableEq, Repr

/-- Interest computed per connection in `Net::reregister`: readable when
`read_interest()` holds; writable when `write_interest()` does NOT hold —
the source tests `!conn.write_buffer.write_interest()`. -/
def connInterest (c : Conn) : Interest where
  readable := read_interest c.read_buffer
  writable := !write_interest c.write_buffer

/-- Mirrors `Net::bump_token`: `last_token.checked_add(1).expect(..)`,
yielding the new `last_token` and the freshly allocated token (they are
equal); `none` models the allocator-exhaustion panic. -/
def bump_token (last_token : Nat) : Option (Nat × Nat) :=
  match checked_add last_token 1 with
  | none => none
  | some n => some (n, n)

/-- Mirrors `Net::empty()`'s initial `last_token: 1`. -/
def initial_last_token : Nat := 1

/-- Resource table entry, mirroring `enum OwnedMode { Server(..), Conn(..) }`
(the listener socket carries no modelled state). -/
inductive OwnedMode
  | Server
  | Conn (conn : Conn)
deriving DecidableEq, Repr

/-- Resource table, mirroring `HashMap<Token, Owned>` as an association list. -/
abbrev Table := List (Nat × OwnedMode)

/-- Mirrors `self.tokens.get(&token)` on the association-list table. -/
def lookup (tokens : Table) (t : Nat) : Option OwnedMode :=
  match tokens.find? fun p => p.fst == t with
  | none => none
  | some p => some p.snd

/-- Mirrors `Net::close_some`: remove every `Conn` entry whose two streams
are both `Done`; `Server` entries are never removed. -/
def close_some (tokens : Table) : Table :=
  tokens.filter fun p =>
    match p.snd with
    | OwnedMode.Server => true
    | OwnedMode.Conn c => !(is_done c.read_buffer && is_done c.write_buffer)

/-- Mirrors the re-registration step of `Net::reregister`: the interest
recomputed for every remaining `Conn` entry (`Server` entries keep their
original registration). -/
def reregister_interests (tokens : Table) : List (Nat × Interest) :=
  tokens.filterMap fun p =>
    match p.snd with
    | OwnedMode.Server => none
    | OwnedMode.Conn c => some (p.fst, connInterest c)

/-- Outcome of one non-blocking `TcpStream::read` call, an environment
input: `eof` is `Ok(0)`, `bytes data` is `Ok(r)` with `data` the `r > 0`
bytes read, `wouldBlock` is `ErrorKind::WouldBlock`, `ioError` any other
error. -/
inductive ReadOutcome
  | eof
  | bytes (data : List Nat)
  | wouldBlock
  | ioError
deriving DecidableEq, Repr

/-- Outcome of one non-blocking `TcpStream::write` call: `wroteZero` is
`Ok(0)`, `wrote w` is `Ok(w)` with `w > 0` bytes accepted, plus
would-block and other errors. -/
inductive WriteOutcome
  | wroteZero
  | wrote (w : Nat)
  | wouldBlock
  | ioError
deriving DecidableEq, Repr

/-- Mirrors `do_a_read`: act on one read outcome, producing the updated
connection, the events pushed onto `woke`, and the loop-continuation flag;
`none` models a panic inside the branch. -/
def do_a_read (conn : Conn) (outcome : ReadOutcome) (token : Nat) :
    Option (Conn × List Event × Bool) :=
  match outcome with
  | ReadOutcome.eof =>
    match become_draining_close conn.read_buffer with
    | none => none
    | some s => some ({ conn with read_buffer := s },
        [Event.Done token Direction.Read], false)
  | ReadOutcome.bytes data =>
    match buf conn.read_buffer with
    | none => none
    | some b =>
      match set_buf conn.read_buffer (b ++ data) with
      | none => none
      | some s => some ({ conn with read_buffer := s }, [Event.Data token], true)
  | ReadOutcome.wouldBlock => some (conn, [], false)
  | ReadOutcome.ioError =>
    match become_truncating_close conn.read_buffer with
    | none => none
    | some s => some ({ conn with read_buffer := s }, [], true)

/-- Mirrors `do_a_write`: the pending buffer must be visible (`buf()`s
`expect`), then one write outcome is applied. -/
def do_a_write (conn : Conn) (outcome : WriteOutcome) (token : Nat) :
    Option (Conn × List Event × Bool) :=
  match buf conn.write_buffer with
  | none => none
  | some b =>
    match outcome with
    | WriteOutcome.wroteZero =>
      some ({ conn with write_buffer := totes_done conn.write_buffer },
        [Event.Done token Direction.Write], false)
    | WriteOutcome.wrote w =>
      if w ≤ b.length then
        match set_buf conn.write_buffer (b.drop w) with
        | none => none
        | some s => some ({ conn with write_buffer := s }, [Event.Data token], true)
      else none
    | WriteOutcome.wouldBlock => some (conn, [], false)
    | WriteOutcome.ioError =>
      some ({ conn with write_buffer := totes_done conn.write_buffer }, [], false)

/-- Read half of `shunt_io`: `while conn.read_buffer.do_read() &&
do_a_read(..) {}`, driven by the finite list of observed outcomes. -/
def read_loop (conn : Conn) (outcomes : List ReadOutcome) (token : Nat) :
    Option (Conn × List Event) :=
  if do_read conn.read_buffer then
    match outcomes with
    | [] => some (conn, [])
    | o :: rest =>
      match do_a_read conn o token with
      | none => none
      | some (c, evs, cont) =>
        if cont then
          match read_loop c rest token with
          | none => none
          | some (c2, evs2) => some (c2, evs ++ evs2)
        else some (c, evs)
  else some (conn, [])

/-- Write half of `shunt_io`: `while conn.write_buffer.do_write() &&
do_a_write(..) {}`. -/
def write_loop (conn : Conn) (outcomes : List WriteOutcome) (token : Nat) :
    Option (Conn × List Event) :=
  if do_write conn.write_buffer then
    match outcomes with
    | [] => some (conn, [])
    | o :: rest =>
      match do_a_write conn o token with
      | none => none
      | some (c, evs, cont) =>
        if cont then
          match write_loop c rest token with
          | none => none
          | some (c2, evs2) => some (c2, evs ++ evs2)
        else some (c, evs)
  else some (conn, [])

/-- Mirrors `shunt_io`: the read drain loop, then the write drain loop,
accumulating the pushed events in order. -/
def shunt_conn (conn : Conn) (reads : List ReadOutcome)
    (writes : List WriteOutcome) (token : Nat) : Option (Conn × List Event) :=
  match read_loop conn reads token with
  | none => none
  | some (c, evs) =>
    match write_loop c writes token with
    | none => none
    | some (c2, evs2) => some (c2, evs ++ evs2)

/-- Outcome of one non-blocking `TcpListener::accept` call: success,
would-block, or an error that `block_to_none` converts into a propagated
`Err` (fatal for `Net::fill`). -/
inductive AcceptOutcome
  | accepted
  | wouldBlock
  | fatalErr
deriving DecidableEq, Repr

/-- Environment for dispatching one OS readiness event. -/
structure OsEnv where
  accept : AcceptOutcome
  reads : List ReadOutcome
  writes : List WriteOutcome
deriving Repr

/-- Mirrors `HashMap::insert` replace-or-append semantics for the
association-list table. -/
def table_insert (tokens : Table) (t : Nat) (m : OwnedMode) : Table :=
  if tokens.any fun p => p.fst == t then
    tokens.map fun p => if p.fst == t then (p.fst, m) else p
  else tokens ++ [(t, m)]

/-- Mirrors the per-event dispatch in `Net::fill`: the wakeup-channel token
drains the (uninhabited) command channel and continues; an unknown token is
skipped; a `Server` token attempts one accept; a `Conn` token runs
`shunt_io`. Returns the new table, new `last_token`, and queued events;
`Except.error` models a propagated fatal `Err`, `none` a panic. -/
def dispatch_event (tokens : Table) (last_token : Nat) (evTok : Nat)
    (env : OsEnv) : Option (Except Unit (Table × Nat × List Event)) :=
  if evTok = COMMANDS_TOKEN then
    some (Except.ok (tokens, last_token, []))
  else
    match lookup tokens evTok with
    | none => some (Except.ok (tokens, last_token, []))
    | some OwnedMode.Server =>
      match env.accept with
      | AcceptOutcome.wouldBlock => some (Except.ok (tokens, last_token, []))
      | AcceptOutcome.fatalErr => some (Except.error ())
      | AcceptOutcome.accepted =>
        match bump_token last_token with
        | none => none
        | some (newLast, newTok) =>
          some (Except.ok
            (table_insert tokens newTok (OwnedMode.Conn Conn_default),
             newLast, [Event.NewConnection newTok]))
    | some (OwnedMode.Conn c) =>
      match shunt_conn c env.reads env.writes evTok with
      | none => none
      | some (c2, evs) =>
        some (Except.ok
          (table_insert tokens evTok (OwnedMode.Conn c2), last_token, evs))


/-- Claim C1 (code evaluation at the failing input): `Net::reregister`
requests writable interest exactly when `write_interest()` is FALSE — the
source negates the condition — so a connection whose outbound stream holds
one buffered byte gets no writable interest, while a connection whose
outbound stream is `Done` does get writable interest; both contradict the
claimed condition (buffered length > 0 or `AwaitingConfirmation`). -/
theorem C1_code_eval :
    write_interest (StreamState.Normal [1] 8192) = true ∧
    (connInterest ⟨Stream_default, StreamState.Normal [1] 8192⟩).writable = false ∧
    (connInterest ⟨Stream_default, StreamState.Done⟩).writable = true ∧
    reregister_interests
        [(2, OwnedMode.Conn ⟨Stream_default, StreamState.Normal [1] 8192⟩)] =
      [(2, Interest.mk true false)] := by
  decide

/-- Claim C2 (counterexample): a zero-byte read on an inbound stream in
`Normal` (Open) state DOES transition it to `Draining` — via
`become_draining_close` — not toward `Done` by a dedicated end-of-input
path as the claim states. -/
theorem C2_counterexample :
    do_a_read ⟨StreamState.Normal [] 8192, Stream_default⟩ ReadOutcome.eof 3 =
      some (⟨StreamState.Draining [], Stream_default⟩,
        [Event.Done 3 Direction.Read], false) := by
  decide

/-- Claim C2 (amended): a zero-byte read on an inbound stream in `Normal`
state transitions it to `Draining` (preserving the buffered bytes), queues
a `Done(token, Read)` event, and stops the read drain loop. -/
theorem C2_amended (c : Conn) (b : List Nat) (w t : Nat)
    (h : c.read_buffer = StreamState.Normal b w) :
    do_a_read c ReadOutcome.eof t =
      some ({ c with read_buffer := StreamState.Draining b },
        [Event.Done t Direction.Read], false) := by
  simp [do_a_read, become_draining_close, h]

theorem C2_amended_witness :
    do_a_read ⟨StreamState.Normal [9] 8192, Stream_default⟩ ReadOutcome.eof 4 =
      some (⟨StreamState.Draining [9], Stream_default⟩,
        [Event.Done 4 Direction.Read], false) :=
  C2_amended ⟨StreamState.Normal [9] 8192, Stream_default⟩ [9] 8192 4 rfl

/-- Claim C3: with the inbound stream force-closed to
`AwaitingConfirmation` (as `Io::close` produces from a fresh connection),
a read is still attempted (`do_read` is true), and a zero-byte result
makes `do_a_read` hit the panicking arm of `become_draining_close` —
a fatal contract failure, modelled as `none`. -/
theorem C3_eof_after_close (c : Conn) (t : Nat)
    (h : c.read_buffer = StreamState.AwaitingConfirmation) :
    do_read c.read_buffer = true ∧
    do_a_read c ReadOutcome.eof t = none ∧
    io_close Conn_default =
      some ⟨StreamState.AwaitingConfirmation, StreamState.Draining []⟩ := by
  refine ⟨?_, ?_, rfl⟩ <;> simp [do_read, do_a_read, become_draining_close, h]

theorem C3_eof_after_close_witness :
    do_read StreamState.AwaitingConfirmation = true ∧
    do_a_read ⟨StreamState.AwaitingConfirmation, StreamState.Draining []⟩
        ReadOutcome.eof 2 = none ∧
    io_close Conn_default =
      some ⟨StreamState.AwaitingConfirmation, StreamState.Draining []⟩ :=
  C3_eof_after_close ⟨StreamState.AwaitingConfirmation, StreamState.Draining []⟩ 2 rfl

/-- Claim C4 (counterexample): with the inbound buffer already at its
capacity threshold (8192 bytes buffered, `wanted` = 8192), the loop guard
`do_read` is still true and the read loop attempts a further read,
appending the bytes and queueing a `Data` event — capacity exhaustion does
not falsify the guard. -/
theorem C4_counterexample :
    do_read (StreamState.Normal (List.replicate 8192 0) 8192) = true ∧
    read_loop ⟨StreamState.Normal (List.replicate 8192 0) 8192, Stream_default⟩
        [ReadOutcome.bytes [7]] 4 =
      some (⟨StreamState.Normal (List.replicate 8192 0 ++ [7]) 8192,
        Stream_default⟩, [Event.Data 4]) := by
  exact ⟨rfl, rfl⟩

/-- Claim C4 (amended): the read drain loop re-checks `do_read` before
each attempt and stops as soon as it is false, but `do_read` is true for
every `Normal` state regardless of buffered length — so the loop stops on
would-block, end-of-stream, error, or a state change, never because the
capacity threshold was reached. -/
theorem C4_amended (c : Conn) (outcomes : List ReadOutcome) (t : Nat)
    (h : do_read c.read_buffer = false) :
    read_loop c outcomes t = some (c, []) ∧
    ∀ (b : List Nat) (w : Nat), do_read (StreamState.Normal b w) = true := by
  refine ⟨?_, fun b w => rfl⟩
  rw [read_loop.eq_def, h]
  simp

theorem C4_amended_witness :
    read_loop ⟨StreamState.Draining [1], StreamState.Done⟩ [ReadOutcome.eof] 6 =
      some (⟨StreamState.Draining [1], StreamState.Done⟩, []) :=
  (C4_amended ⟨StreamState.Draining [1], StreamState.Done⟩ [ReadOutcome.eof] 6 rfl).left

/-- Claim C5: `Net::close_some` keeps a connection entry exactly when not
both of its streams are `Done`; equivalently an entry is removed iff both
inbound and outbound have reached `Done`, and never otherwise. -/
theorem C5_removal_iff (tokens : Table) (t : Nat) (c : Conn) :
    (t, OwnedMode.Conn c) ∈ close_some tokens ↔
      ((t, OwnedMode.Conn c) ∈ tokens ∧
        ¬(is_done c.read_buffer = true ∧ is_done c.write_buffer = true)) := by
  simp only [close_some]
  rw [List.mem_filter]
  cases hr : is_done c.read_buffer <;> cases hw : is_done c.write_buffer <;>
    simp [hr, hw]

/-- Claim C6: with the inbound stream `Normal` and buffered length at or
above the capacity threshold, the recomputed readiness interest has no
readable bit; `consume` drops the first `n` bytes, and once the remaining
length is below the threshold `read_interest` is true again. -/
theorem C6_backpressure (c : Conn) (b : List Nat) (w n : Nat)
    (hc : c.read_buffer = StreamState.Normal b w)
    (hfull : w ≤ b.length) (hn : n ≤ b.length) (hbelow : b.length - n < w) :
    (connInterest c).readable = false ∧
    consume (StreamState.Normal b w) n = some (StreamState.Normal (b.drop n) w) ∧
    read_interest (StreamState.Normal (b.drop n) w) = true := by
  refine ⟨?_, ?_, ?_⟩
  · simp [connInterest, hc, read_interest]
    omega
  · simp [consume, buf, set_buf, hn]
  · simp [read_interest]
    omega

theorem C6_backpressure_witness :
    (connInterest ⟨StreamState.Normal [1, 2, 3] 2, Stream_default⟩).readable = false ∧
    consume (StreamState.Normal [1, 2, 3] 2) 2 =
      some (StreamState.Normal (([1, 2, 3] : List Nat).drop 2) 2) ∧
    read_interest (StreamState.Normal (([1, 2, 3] : List Nat).drop 2) 2) = true :=
  C6_backpressure ⟨StreamState.Normal [1, 2, 3] 2, Stream_default⟩ [1, 2, 3] 2 2
    rfl (by decide) (by decide) (by decide)

/-- Claim C7: `Done` is terminal — both close requests panic (`none`)
rather than change state, `totes_done` leaves the state `Done`, and every
buffer mutation (`consume`, `write_append`, any write through `buf_mut`)
is unavailable (`none`). -/
theorem C7_done_terminal (n : Nat) (data : List Nat) :
    become_truncating_close StreamState.Done = none ∧
    become_draining_close StreamState.Done = none ∧
    totes_done StreamState.Done = StreamState.Done ∧
    consume StreamState.Done n = none ∧
    write_append StreamState.Done data = none ∧
    set_buf StreamState.Done data = none :=
  ⟨rfl, rfl, rfl, rfl, rfl, rfl⟩

/-- Claim C8 (counterexample): a non-would-block read error on an Open
inbound stream transitions it to `AwaitingConfirmation` (not `Done`),
queues NO event — in particular no `Done` event is surfaced — and returns
true so the drain loop continues. -/
theorem C8_counterexample :
    do_a_read Conn_default ReadOutcome.ioError 9 =
      some (⟨StreamState.AwaitingConfirmation, Stream_default⟩, [], true) := by
  decide

/-- Claim C8 (amended): a non-would-block read error on a `Normal` inbound
stream performs a truncating close to `AwaitingConfirmation`, queues no
event for that attempt, lets the drain loop continue, and propagates no
error from the reactor. -/
theorem C8_amended (c : Conn) (b : List Nat) (w t : Nat)
    (h : c.read_buffer = StreamState.Normal b w) :
    do_a_read c ReadOutcome.ioError t =
      some ({ c with read_buffer := StreamState.AwaitingConfirmation }, [], true) := by
  simp [do_a_read, become_truncating_close, h]

theorem C8_amended_witness :
    do_a_read ⟨StreamState.Normal [5] 4, StreamState.Done⟩ ReadOutcome.ioError 1 =
      some (⟨StreamState.AwaitingConfirmation, StreamState.Done⟩, [], true) :=
  C8_amended ⟨StreamState.Normal [5] 4, StreamState.Done⟩ [5] 4 1 rfl

/-- Claim C9: every successful `bump_token` returns a token equal to the
new `last_token`, strictly greater than the previous `last_token`,
strictly positive, and distinct from the reserved wakeup token 0; at
`usize::MAX` the allocation panics (`none`). -/
theorem C9_tokens (last newLast tok : Nat)
    (h : bump_token last = some (newLast, tok)) :
    tok = newLast ∧ last < tok ∧ 0 < tok ∧ tok ≠ COMMANDS_TOKEN ∧
    bump_token USIZE_MAX = none := by
  by_cases hle : last + 1 ≤ USIZE_MAX
  · simp [bump_token, checked_add, hle] at h
    obtain ⟨h1, h2⟩ := h
    refine ⟨by omega, by omega, by omega, ?_, by decide⟩
    simp [COMMANDS_TOKEN]
    omega
  · simp [bump_token, checked_add, hle] at h

theorem C9_tokens_witness :
    (2 : Nat) = 2 ∧ 1 < 2 ∧ 0 < 2 ∧ (2 : Nat) ≠ COMMANDS_TOKEN ∧
    bump_token USIZE_MAX = none :=
  C9_tokens 1 2 2 (by decide)

/-- Claim C10: an OS readiness event whose token is neither the wakeup
token nor present in the resource table is silently skipped: the table,
the allocator, and the event queue are unchanged, and no error or panic
occurs. -/
theorem C10_unknown_token (tokens : Table) (last evTok : Nat) (env : OsEnv)
    (h0 : evTok ≠ COMMANDS_TOKEN) (hn : lookup tokens evTok = none) :
    dispatch_event tokens last evTok env =
      some (Except.ok (tokens, last, [])) := by
  simp [dispatch_event, h0, hn]

theorem C10_unknown_token_witness :
    dispatch_event [] 1 5 ⟨AcceptOutcome.wouldBlock, [], []⟩ =
      some (Except.ok ([], 1, [])) :=
  C10_unknown_token [] 1 5 ⟨AcceptOutcome.wouldBlock, [], []⟩ (by decide) rfl

end Nofio
